import Mathlib

/-!
Verification of the radar_pi flight-tracking core: a shallow embedding of
the data normalization and display-rendering pipeline
(src/flight/models.py, src/flight/data_parser.py,
src/display/html_image_generator.py, src/services/radar_service.py),
together with theorems settling the specification claims about it.

Python values flowing through the pipeline are modelled by the JSON-like
type `JVal`; Python dictionaries by association lists; a Python function
that can raise an exception by an `Option`-valued Lean function
(`none` = the call raises).  Machine floats are modelled as exact
rationals (`Rat`); the claims under study never depend on binary
floating-point rounding.
-/

/-- A JSON-like Python value: the payloads the upstream ADS-B API can put
into a response.  `int` and `float` are separate constructors because
Python distinguishes them (JSON numbers without a decimal point parse as
`int`).  Numeric payloads are exact rationals. -/
inductive JVal where
  | null
  | bool (b : Bool)
  | int (n : Int)
  | float (q : Rat)
  | str (s : String)
  | arr (xs : List JVal)
  | obj (kvs : List (String × JVal))

/-- A raw aircraft mapping as extracted from the API response: a Python
dict of string keys to loosely-typed values. -/
def RawAircraft := List (String × JVal)

/-- Python `d.get(k)` returning `none` when the key is absent
(`d[k]` lookup, first binding wins; Python dicts have unique keys). -/
def dictGet? (d : List (String × JVal)) (k : String) : Option JVal :=
  (d.find? (fun p => p.1 == k)).map Prod.snd

/-- Python `d.get(k, default)`. -/
def dictGetD (d : List (String × JVal)) (k : String) (dflt : JVal) : JVal :=
  (dictGet? d k).getD dflt

/-- Python `d.get(k)` with the implicit `None` default, as a `JVal`
(collapses "key absent" and "key present with value None", exactly as
`dict.get` does). -/
def dictGet (d : List (String × JVal)) (k : String) : JVal :=
  dictGetD d k JVal.null

/-- Python truthiness of a value (`bool(v)`): `None`, `False`, numeric
zero, and empty strings/containers are falsy. -/
def truthy : JVal → Bool
  | JVal.null => false
  | JVal.bool b => b
  | JVal.int n => n != 0
  | JVal.float q => q != 0
  | JVal.str s => s != ""
  | JVal.arr xs => !xs.isEmpty
  | JVal.obj kvs => !kvs.isEmpty

def JVal.isObj : JVal → Bool
  | JVal.obj _ => true
  | _ => false

def JVal.isArr : JVal → Bool
  | JVal.arr _ => true
  | _ => false

/-- Python `s.strip()`: drop leading and trailing whitespace.  (Modelled
over the ASCII whitespace characters recognised by `Char.isWhitespace`;
the exotic Unicode spaces Python additionally strips do not occur in the
claims.) -/
def pyStrip (s : String) : String :=
  ⟨((s.data.dropWhile Char.isWhitespace).reverse.dropWhile Char.isWhitespace).reverse⟩

/-- Python `s[-n:]`: the last `n` characters of `s` (the whole string
when it is shorter than `n`). -/
def lastChars (n : Nat) (s : String) : String :=
  ⟨s.data.drop (s.data.length - n)⟩

/-- Numeric value of a digit string (most significant first). -/
def digitsVal (cs : List Char) : Nat :=
  cs.foldl (fun a c => a * 10 + (c.toNat - 48)) 0

/-- Parse an unsigned decimal literal (`D+`, `D+.D*`, `.D+`) as an exact
rational, `none` when the characters are not such a literal. -/
def parseUnsignedDec? (cs : List Char) : Option Rat :=
  if cs.contains '.' then
    match cs.dropWhile (fun c => c != '.') with
    | '.' :: fp =>
      let ip := cs.takeWhile (fun c => c != '.')
      if ip.all Char.isDigit && fp.all Char.isDigit && !(ip.isEmpty && fp.isEmpty) then
        some ((digitsVal ip : Rat) + (digitsVal fp : Rat) / ((10 : Rat) ^ fp.length))
      else none
    | _ => none
  else if !cs.isEmpty && cs.all Char.isDigit then some (digitsVal cs) else none

/-- CPython `float(s)` on a string: strip surrounding whitespace, allow
one leading sign, then a plain decimal literal.  (The exponent, `inf`,
`nan` and underscore forms CPython additionally accepts never occur in
this program's data and are not modelled.) -/
def pyFloatOfString? (s : String) : Option Rat :=
  match (pyStrip s).data with
  | '+' :: rest => parseUnsignedDec? rest
  | '-' :: rest => (parseUnsignedDec? rest).map Neg.neg
  | cs => parseUnsignedDec? cs

/-- CPython `float(v)` on an arbitrary value: numbers and bools coerce,
strings are parsed, everything else (None, lists, dicts) raises
(`none`). -/
def pyFloat? : JVal → Option Rat
  | JVal.bool b => some (if b then 1 else 0)
  | JVal.int n => some (n : Rat)
  | JVal.float q => some q
  | JVal.str s => pyFloatOfString? s
  | _ => none

/-- From src/flight/models.py: the canonical aircraft record produced
by `Aircraft.from_api_data`.  Python's dataclass does not enforce the
annotated types of the passthrough fields, so those keep the raw `JVal`
(with `JVal.null` where the source stores `None`). -/
structure Aircraft where
  flight_number : String
  model : JVal
  registration : JVal
  ground_speed : Rat
  altitude : JVal
  hex_code : JVal
  latitude : JVal
  longitude : JVal
  heading : JVal
  vertical_rate : JVal
  squawk : JVal

/-- models.py line 31:
`flight = data.get('flight', '').strip() if data.get('flight') else ''`.
`none` models the AttributeError raised when the `flight` value is a
truthy non-string (no `.strip` method). -/
def flight_field (data : RawAircraft) : Option String :=
  if truthy (dictGet data "flight") then
    match dictGetD data "flight" (JVal.str "") with
    | JVal.str s => some (pyStrip s)
    | _ => none
  else some ""

/-- models.py lines 32-34: when the stripped flight is empty,
`hex_code = data.get('hex', 'XXXX')` and
`flight = f"AC{hex_code[-4:]}" if hex_code else "UNKNOWN"`.
`none` models the TypeError raised when slicing a truthy non-string. -/
def derive_flight (data : RawAircraft) (flight : String) : Option String :=
  if flight = "" then
    match dictGetD data "hex" (JVal.str "XXXX") with
    | JVal.str h => if h != "" then some ("AC" ++ lastChars 4 h) else some "UNKNOWN"
    | v => if truthy v then none else some "UNKNOWN"
  else some flight

/-- models.py line 41:
`float(data.get('gs', 0)) if data.get('gs') is not None else 0.0`.
`none` models the ValueError/TypeError raised by an uncoercible `gs`. -/
def ground_speed_field (data : RawAircraft) : Option Rat :=
  match dictGet data "gs" with
  | JVal.null => some 0
  | v => pyFloat? v

/-- models.py lines 28-49, `Aircraft.from_api_data`: normalize one raw
aircraft mapping; `none` models any exception escaping the classmethod
(caught by the aggregator). -/
def Aircraft.from_api_data (data : RawAircraft) : Option Aircraft :=
  match flight_field data with
  | none => none
  | some f =>
  match derive_flight data f with
  | none => none
  | some flight =>
  match ground_speed_field data with
  | none => none
  | some gs =>
  some {
    flight_number := flight,
    model := dictGetD data "t" (JVal.str "Unknown"),
    registration := dictGetD data "r" (JVal.str "Unknown"),
    ground_speed := gs,
    altitude := dictGet data "alt_baro",
    hex_code := dictGet data "hex",
    latitude := dictGet data "lat",
    longitude := dictGet data "lon",
    heading := dictGet data "track",
    vertical_rate := dictGet data "baro_rate",
    squawk := dictGet data "squawk" }

/-- `Aircraft.from_api_data` applied to one element of the extracted
list; a non-mapping element makes `data.get` raise AttributeError
(`none`), which the aggregator's `except` clause swallows. -/
def Aircraft.from_api_element (v : JVal) : Option Aircraft :=
  match v with
  | JVal.obj kvs => Aircraft.from_api_data kvs
  | _ => none

/-- src/config/settings.py: the slice of `Settings` the embedded pipeline
reads (`max_aircraft_display`, default 10). -/
structure Settings where
  max_aircraft_display : Nat := 10

/-- src/flight/models.py lines 72-86: `FlightData`.  The timestamp is
the `datetime.now()` capture instant, threaded in explicitly as a
natural number. -/
structure FlightData where
  aircraft : List Aircraft
  timestamp : Nat
  total_count : Nat
  search_latitude : Rat
  search_longitude : Rat
  search_radius : Int

/-- models.py lines 83-86: the primary (first) aircraft, absent when the
list is empty. -/
def FlightData.primary_aircraft (fd : FlightData) : Option Aircraft :=
  fd.aircraft.head?

/-- The candidate value `lst` run through data_parser.py line 95:
`lst if isinstance(lst, list) else []`. -/
def listOrEmpty : JVal → List JVal
  | JVal.arr xs => xs
  | _ => []

/-- data_parser.py lines 74-95, `FlightDataParser._extract_aircraft_list`:
non-dicts give `[]`; key `"aircraft"` is tried first, then `"ac"`; a
chosen candidate that is not a list gives `[]`. -/
def extract_aircraft_list (data : JVal) : List JVal :=
  match data with
  | JVal.obj kvs =>
    match dictGet? kvs "aircraft" with
    | some v => listOrEmpty v
    | none =>
      match dictGet? kvs "ac" with
      | some v => listOrEmpty v
      | none => []
  | _ => []

/-- data_parser.py lines 27-72, `FlightDataParser.parse_api_response`:
falsy responses give `None`; the extracted list, if empty, gives `None`;
the first `max_aircraft_display` elements are normalized, elements whose
normalization raises are skipped (`except ... continue`); if none
survive the result is `None`; otherwise a `FlightData` with
`total_count` the length of the full extracted list. -/
def parse_api_response (s : Settings) (response_data : JVal) (now : Nat)
    (search_lat search_lon : Rat) (search_radius : Int) : Option FlightData :=
  if truthy response_data then
    if (extract_aircraft_list response_data).isEmpty then none
    else
      if (((extract_aircraft_list response_data).take s.max_aircraft_display).filterMap
            Aircraft.from_api_element).isEmpty then none
      else some {
        aircraft := ((extract_aircraft_list response_data).take s.max_aircraft_display).filterMap
          Aircraft.from_api_element,
        timestamp := now,
        total_count := (extract_aircraft_list response_data).length,
        search_latitude := search_lat,
        search_longitude := search_lon,
        search_radius := search_radius }
  else none

/-- src/services/flight_service.py lines 29-82,
`FlightService.get_flight_data`: the fetched raw payload (`none` models
a fetch failure) is rejected when falsy, then parsed. -/
def get_flight_data (s : Settings) (raw : Option JVal) (now : Nat)
    (search_lat search_lon : Rat) (search_radius : Int) : Option FlightData :=
  match raw with
  | none => none
  | some r =>
    if truthy r then parse_api_response s r now search_lat search_lon search_radius
    else none

/-- The externally visible file system state the orchestrator can touch:
the configured output image path's content, absent when no file exists. -/
structure FileSystem where
  output_image : Option String

/-- src/services/radar_service.py lines 89-127,
`RadarService.run_full_cycle`: fetch and aggregate; when no flight data
results, return `False` without attempting display generation.  The
display-generation step (browser rasterization, an external
collaborator) is passed in as `generate_display`, receiving the flight
data and the current file system and returning the success flag and the
new file system. -/
def run_full_cycle (s : Settings) (raw : Option JVal) (now : Nat)
    (search_lat search_lon : Rat) (search_radius : Int)
    (generate_display : FlightData → FileSystem → Bool × FileSystem)
    (fs : FileSystem) : Bool × FileSystem :=
  match get_flight_data s raw now search_lat search_lon search_radius with
  | none => (false, fs)
  | some fd => generate_display fd fs

/-- Decimal digits of a fraction part, left-padded with zeros to width
`k`. -/
def padLeftZeros (k : Nat) (s : String) : String :=
  ⟨List.replicate (k - s.data.length) '0' ++ s.data⟩

/-- The smallest exponent 10^k clearing the denominator of `q`, when one
of at most 17 exists (every float value this program handles is such a
terminating decimal). -/
def decExp? (q : Rat) : Option Nat :=
  (List.range 18).find? (fun k => (q * 10 ^ k).den == 1)

/-- CPython `str()` of a float value, for terminating decimals: integral
values render with a trailing `.0`, others with their exact decimal
digits. -/
def floatRepr (q : Rat) : String :=
  match decExp? q with
  | some 0 => (if q.num < 0 then "-" else "") ++ toString q.num.natAbs ++ ".0"
  | some k =>
    let n := (q * 10 ^ k).num
    (if n < 0 then "-" else "") ++ toString (n.natAbs / 10 ^ k) ++ "." ++
      padLeftZeros k (toString (n.natAbs % 10 ^ k))
  | none => toString q.num ++ "/" ++ toString q.den

/-- CPython `str()` of a value.  Container reprs are abbreviated to
their surrounding bracket (every Python list/dict repr starts with that
bracket, which is all the renderer's float-parsing of the result can
observe). -/
def pyStr : JVal → String
  | JVal.null => "None"
  | JVal.bool true => "True"
  | JVal.bool false => "False"
  | JVal.int n => toString n
  | JVal.float q => floatRepr q
  | JVal.str s => s
  | JVal.arr _ => "[...]"
  | JVal.obj _ => "\x7b...\x7d"

/-- One fuel-indexed step list of Python `s.replace(pat, rep)` over
character lists: leftmost, non-overlapping, all occurrences.  The fuel
is the length of the subject, which bounds the recursion depth. -/
def replaceFuel (pat rep : List Char) : Nat → List Char → List Char
  | _, [] => []
  | 0, s => s
  | fuel + 1, c :: rest =>
    if !pat.isEmpty && pat.isPrefixOf (c :: rest) then
      rep ++ replaceFuel pat rep fuel (List.drop pat.length (c :: rest))
    else c :: replaceFuel pat rep fuel rest

/-- Python `s.replace(pat, rep)` for a non-empty pattern. -/
def strReplace (s pat rep : String) : String :=
  ⟨replaceFuel pat.data rep.data s.data.length s.data⟩

/-- Truncation of a rational toward zero, as Python `int(float)` does. -/
def ratTrunc (q : Rat) : Int :=
  Int.tdiv q.num q.den

/-- Floor of a rational (Euclidean division of numerator by the positive
denominator). -/
def ratFloor (q : Rat) : Int :=
  Int.ediv q.num q.den

/-- Round to the nearest integer, ties to even, as CPython float
formatting does on the exact stored value. -/
def roundHalfEven (q : Rat) : Int :=
  let n := ratFloor q
  let frac := q - (n : Rat)
  if frac < 1 / 2 then n
  else if 1 / 2 < frac then n + 1
  else if n % 2 = 0 then n else n + 1

/-- html_image_generator.py lines 107-111: `f"{gs:.1f}"`, one decimal
place. -/
def format_ground_speed (q : Rat) : String :=
  let scaled := roundHalfEven (q * 10)
  (if scaled < 0 then "-" else "") ++ toString (scaled.natAbs / 10) ++ "." ++
    toString (scaled.natAbs % 10)

/-- html_image_generator.py lines 113-123: altitude formatting.  A
`None` altitude renders `"N/A"`; otherwise
`str(alt).replace('ft', '').strip()` is parsed with `float` and
truncated with `int`, rendering `"N/A"` when the parse raises. -/
def format_altitude (alt : JVal) : String :=
  match alt with
  | JVal.null => "N/A"
  | v =>
    match pyFloatOfString? (pyStrip (strReplace (pyStr v) "ft" "")) with
    | some q => toString (ratTrunc q)
    | none => "N/A"

/-- Python `x or default` on a value that is then used as a `str.replace`
argument: a truthy non-string would raise TypeError inside `replace`
(`none`); a falsy value yields the default. -/
def py_or_str (v : JVal) (dflt : String) : Option String :=
  if truthy v then
    match v with
    | JVal.str s => some s
    | _ => none
  else some dflt

def ph_flight_number : String := "\x7b\x7bflight_number\x7d\x7d"

def ph_model : String := "\x7b\x7bmodel\x7d\x7d"

def ph_registration : String := "\x7b\x7bregistration\x7d\x7d"

def ph_ground_speed : String := "\x7b\x7bground_speed\x7d\x7d"

def ph_altitude : String := "\x7b\x7baltitude\x7d\x7d"

/-- html_image_generator.py lines 81-132,
`HTMLImageGenerator._populate_template`.  The first line evaluates
`flight_data.primary_aircraft`; an absent (`None`) `flight_data`
therefore raises AttributeError (`none`) before any field is resolved.
With flight data present, an absent primary aircraft resolves all five
fields to sentinels; a present one resolves each field from the
aircraft; in both cases all five placeholders are then replaced
unconditionally. -/
def populate_template (template : String) (flight_data : Option FlightData) :
    Option String :=
  match flight_data with
  | none => none
  | some fd =>
    match fd.primary_aircraft with
    | none =>
      some (strReplace (strReplace (strReplace (strReplace (strReplace template
        ph_flight_number "NO DATA") ph_model "Unknown") ph_registration "Unknown")
        ph_ground_speed "N/A") ph_altitude "N/A")
    | some aircraft => do
      let flight_number := if aircraft.flight_number = "" then "N/A"
        else aircraft.flight_number
      let model ← py_or_str aircraft.model "Unknown"
      let registration ← py_or_str aircraft.registration "Unknown"
      let ground_speed := format_ground_speed aircraft.ground_speed
      let altitude := format_altitude aircraft.altitude
      pure (strReplace (strReplace (strReplace (strReplace (strReplace template
        ph_flight_number flight_number) ph_model model) ph_registration registration)
        ph_ground_speed ground_speed) ph_altitude altitude)

/-- The raw `flight` and `hex` fields are each absent, `None`, or a
string: the shapes the normalizer's string operations expect. -/
def wellFormedIdField : Option JVal → Bool
  | none => true
  | some JVal.null => true
  | some (JVal.str _) => true
  | _ => false

def flightHexWellFormed (data : RawAircraft) : Bool :=
  wellFormedIdField (dictGet? data "flight") && wellFormedIdField (dictGet? data "hex")

/-- A two-aircraft `"aircraft"`-keyed response used as concrete test
input. -/
def respC3 : JVal := JVal.obj [("aircraft", JVal.arr [JVal.obj [], JVal.obj []])]

/-- The aircraft record the normalizer produces from an empty raw
mapping. -/
def aircraftACXXXX : Aircraft :=
  { flight_number := "ACXXXX", model := JVal.str "Unknown",
    registration := JVal.str "Unknown", ground_speed := 0,
    altitude := JVal.null, hex_code := JVal.null, latitude := JVal.null,
    longitude := JVal.null, heading := JVal.null,
    vertical_rate := JVal.null, squawk := JVal.null }

/-! ### Helper lemmas -/

/-- A string beginning with the literal `"AC"` is non-empty. -/
lemma ac_append_ne_empty (s : String) : ("AC" ++ s) ≠ "" := by
  cases s with
  | mk data => exact fun h => List.cons_ne_nil _ _ (congrArg String.data h)

/-- Inversion of a successful aggregation: the aircraft list is the
normalization of the truncated extracted list, `total_count` is the full
extracted length, and the aircraft list is non-empty. -/
lemma parse_some_inv {s : Settings} {resp : JVal} {now : Nat}
    {lat lon : Rat} {radius : Int} {fd : FlightData}
    (h : parse_api_response s resp now lat lon radius = some fd) :
    fd.aircraft = ((extract_aircraft_list resp).take s.max_aircraft_display).filterMap
        Aircraft.from_api_element
    ∧ fd.total_count = (extract_aircraft_list resp).length
    ∧ fd.aircraft.isEmpty = false := by
  unfold parse_api_response at h
  split at h
  · split at h
    · simp at h
    · split at h
      · simp at h
      · rename_i hne
        injection h with h
        subst h
        exact ⟨rfl, rfl, by simpa using hne⟩
  · simp at h

/-- An empty extraction forces an absent aggregation result. -/
lemma parse_none_of_extract_empty {s : Settings} {resp : JVal} {now : Nat}
    {lat lon : Rat} {radius : Int}
    (h : extract_aircraft_list resp = []) :
    parse_api_response s resp now lat lon radius = none := by
  unfold parse_api_response
  split
  · rw [h]
    simp
  · rfl

/-- With a well-formed `flight` field, the flight-string computation of
models.py line 31 cannot raise. -/
lemma flight_field_of_wf {data : RawAircraft}
    (h : wellFormedIdField (dictGet? data "flight") = true) :
    ∃ f, flight_field data = some f := by
  unfold flight_field dictGet dictGetD
  cases hq : dictGet? data "flight" with
  | none => exact ⟨"", by simp [truthy]⟩
  | some v =>
    rw [hq] at h
    cases v
    · exact ⟨"", by simp [truthy]⟩
    · simp [wellFormedIdField] at h
    · simp [wellFormedIdField] at h
    · simp [wellFormedIdField] at h
    · rename_i s
      by_cases hs : s = ""
      · exact ⟨"", by simp [truthy, hs]⟩
      · exact ⟨pyStrip s, by simp [truthy, hs]⟩
    · simp [wellFormedIdField] at h
    · simp [wellFormedIdField] at h

/-- With a well-formed `hex` field, the fallback-flight derivation of
models.py lines 32-34 cannot raise. -/
lemma derive_flight_of_wf {data : RawAircraft}
    (h : wellFormedIdField (dictGet? data "hex") = true) (f : String) :
    ∃ fl, derive_flight data f = some fl := by
  unfold derive_flight dictGetD
  by_cases hf : f = ""
  · simp only [hf, if_pos rfl]
    cases hq : dictGet? data "hex" with
    | none => exact ⟨"AC" ++ lastChars 4 "XXXX", by simp⟩
    | some v =>
      rw [hq] at h
      cases v
      · exact ⟨"UNKNOWN", by simp [truthy]⟩
      · simp [wellFormedIdField] at h
      · simp [wellFormedIdField] at h
      · simp [wellFormedIdField] at h
      · rename_i str_val
        by_cases hs : str_val = ""
        · exact ⟨"UNKNOWN", by simp [hs]⟩
        · exact ⟨"AC" ++ lastChars 4 str_val, by simp [hs]⟩
      · simp [wellFormedIdField] at h
      · simp [wellFormedIdField] at h
  · exact ⟨f, by simp [hf]⟩

/-! ### Claim theorems -/

/-- Claim C1, counterexample: on the empty raw mapping (both `flight`
and `hex` absent) the normalizer returns flight number `"ACXXXX"` (from
the default placeholder `'XXXX'` in `data.get('hex', 'XXXX')`), not
`"UNKNOWN"`. -/
theorem c1_unknown_fallback_counterexample :
    dictGet? ([] : RawAircraft) "flight" = none
    ∧ dictGet? ([] : RawAircraft) "hex" = none
    ∧ (Aircraft.from_api_data ([] : RawAircraft)).map Aircraft.flight_number
        = some "ACXXXX"
    ∧ (some "ACXXXX" : Option String) ≠ some "UNKNOWN" :=
  ⟨rfl, rfl, rfl, by decide⟩

/-- Claim C1, amended: for every raw aircraft mapping in which both
`flight` and `hex` are absent, any Aircraft the normalizer returns has
flight number `"ACXXXX"`; the literal `"UNKNOWN"` arises only when `hex`
is present but falsy. -/
theorem c1_acxxxx_fallback (data : RawAircraft)
    (hf : dictGet? data "flight" = none) (hh : dictGet? data "hex" = none)
    (a : Aircraft) (ha : Aircraft.from_api_data data = some a) :
    a.flight_number = "ACXXXX" := by
  have h1 : flight_field data = some "" := by
    simp [flight_field, dictGet, dictGetD, hf, truthy]
  have h2 : derive_flight data "" = some ("AC" ++ lastChars 4 "XXXX") := by
    simp [derive_flight, dictGetD, hh]
  unfold Aircraft.from_api_data at ha
  split at ha
  · simp at ha
  · split at ha
    · simp at ha
    · split at ha
      · simp at ha
      · rename_i x1 f hf1 x2 flight hfl x3 gs hgs
        injection ha with ha
        subst ha
        show flight = "ACXXXX"
        rw [h1] at hf1
        injection hf1 with hf1
        rw [← hf1] at hfl
        rw [h2] at hfl
        injection hfl with hfl
        rw [← hfl]
        decide

/-- Claim C1, amended, witness: hypotheses discharged on the mapping
containing only a coercible ground speed. -/
theorem c1_acxxxx_fallback_witness :
    Option.map Aircraft.flight_number
      (Aircraft.from_api_data [("gs", JVal.int 250)]) = some "ACXXXX" := by
  have h := c1_acxxxx_fallback [("gs", JVal.int 250)] rfl rfl _ rfl
  exact congrArg some h

/-- Claim C3: every FlightData the aggregator produces carries the
normalization of the first `max_aircraft_display` extracted elements (in
order), while `total_count` is the length of the full extracted list. -/
theorem c3_truncation_and_total_count (s : Settings) (resp : JVal) (now : Nat)
    (lat lon : Rat) (radius : Int) (fd : FlightData)
    (h : parse_api_response s resp now lat lon radius = some fd) :
    fd.aircraft = ((extract_aircraft_list resp).take s.max_aircraft_display).filterMap
        Aircraft.from_api_element
    ∧ fd.total_count = (extract_aircraft_list resp).length :=
  ⟨(parse_some_inv h).1, (parse_some_inv h).2.1⟩

/-- Claim C3, witness: with a display cap of 1 and two raw aircraft, the
parsed list has one element while `total_count` is 2 — exceeding
`len(aircraft)`. -/
theorem c3_truncation_and_total_count_witness :
    Option.map FlightData.aircraft (parse_api_response ⟨1⟩ respC3 0 0 0 0)
      = some (((extract_aircraft_list respC3).take 1).filterMap Aircraft.from_api_element)
    ∧ Option.map FlightData.total_count (parse_api_response ⟨1⟩ respC3 0 0 0 0)
      = some ((extract_aircraft_list respC3).length)
    ∧ Option.map FlightData.total_count (parse_api_response ⟨1⟩ respC3 0 0 0 0) = some 2
    ∧ Option.map (fun fd => fd.aircraft.length) (parse_api_response ⟨1⟩ respC3 0 0 0 0)
        = some 1 := by
  have hp : parse_api_response ⟨1⟩ respC3 0 0 0 0
      = some ⟨[aircraftACXXXX], 0, 2, 0, 0, 0⟩ := rfl
  have h := c3_truncation_and_total_count ⟨1⟩ respC3 0 0 0 0 _ hp
  refine ⟨?_, ?_, ?_, ?_⟩
  · rw [hp]
    exact congrArg some h.1
  · rw [hp]
    exact congrArg some h.2
  · rw [hp]
    rfl
  · rw [hp]
    rfl

/-- Claim C5: the aggregator yields an absent result on `None`, an empty
mapping, any non-mapping, a mapping with neither aircraft-list key, a
non-sequence candidate (whether chosen via `"aircraft"` or `"ac"`), and
an empty extracted list; and a present `"aircraft"` key fixes the
candidate with no fallback to `"ac"`. -/
theorem c5_no_data_conditions (s : Settings) (now : Nat) (lat lon : Rat)
    (radius : Int) :
    parse_api_response s JVal.null now lat lon radius = none
    ∧ parse_api_response s (JVal.obj []) now lat lon radius = none
    ∧ (∀ v : JVal, v.isObj = false → parse_api_response s v now lat lon radius = none)
    ∧ (∀ kvs, dictGet? kvs "aircraft" = none → dictGet? kvs "ac" = none →
        parse_api_response s (JVal.obj kvs) now lat lon radius = none)
    ∧ (∀ kvs v, dictGet? kvs "aircraft" = some v → v.isArr = false →
        parse_api_response s (JVal.obj kvs) now lat lon radius = none)
    ∧ (∀ kvs v, dictGet? kvs "aircraft" = none → dictGet? kvs "ac" = some v →
        v.isArr = false → parse_api_response s (JVal.obj kvs) now lat lon radius = none)
    ∧ (∀ v : JVal, extract_aircraft_list v = [] →
        parse_api_response s v now lat lon radius = none)
    ∧ (∀ kvs v, dictGet? kvs "aircraft" = some v →
        extract_aircraft_list (JVal.obj kvs) = listOrEmpty v) := by
  refine ⟨rfl, rfl, ?_, ?_, ?_, ?_, fun v h => parse_none_of_extract_empty h, ?_⟩
  · intro v hv
    apply parse_none_of_extract_empty
    cases v <;> simp_all [JVal.isObj, extract_aircraft_list]
  · intro kvs h1 h2
    apply parse_none_of_extract_empty
    simp [extract_aircraft_list, h1, h2]
  · intro kvs v h1 h2
    apply parse_none_of_extract_empty
    simp only [extract_aircraft_list, h1]
    cases v <;> simp_all [JVal.isArr, listOrEmpty]
  · intro kvs v h1 h2 h3
    apply parse_none_of_extract_empty
    simp only [extract_aircraft_list, h1, h2]
    cases v <;> simp_all [JVal.isArr, listOrEmpty]
  · intro kvs v h1
    simp [extract_aircraft_list, h1]

/-- Claim C5, witness: each hypothesis of `c5_no_data_conditions`
discharged at a concrete input, including priority of `"aircraft"` over
a list-valued `"ac"`. -/
theorem c5_no_data_conditions_witness :
    parse_api_response {} (JVal.str "nodata") 0 0 0 0 = none
    ∧ parse_api_response {} (JVal.obj [("foo", JVal.int 1)]) 0 0 0 0 = none
    ∧ parse_api_response {}
        (JVal.obj [("aircraft", JVal.int 7), ("ac", JVal.arr [JVal.obj []])]) 0 0 0 0 = none
    ∧ parse_api_response {} (JVal.obj [("ac", JVal.str "x")]) 0 0 0 0 = none
    ∧ parse_api_response {} (JVal.obj [("aircraft", JVal.arr [])]) 0 0 0 0 = none
    ∧ extract_aircraft_list
        (JVal.obj [("aircraft", JVal.arr [JVal.null]), ("ac", JVal.arr [])])
          = [JVal.null] := by
  have h := c5_no_data_conditions {} 0 0 0 0
  exact ⟨h.2.2.1 _ rfl, h.2.2.2.1 _ rfl rfl, h.2.2.2.2.1 _ _ rfl rfl,
    h.2.2.2.2.2.1 _ _ rfl rfl rfl, h.2.2.2.2.2.2.1 _ rfl,
    h.2.2.2.2.2.2.2 _ (JVal.arr [JVal.null]) rfl⟩

/-- Claim C9: aggregating `{"aircraft": L}` and `{"ac": L}` with
identical search parameters yields equal normalized aircraft
sequences. -/
theorem c9_key_name_independence (s : Settings) (L : List JVal) (now : Nat)
    (lat lon : Rat) (radius : Int) :
    Option.map FlightData.aircraft
        (parse_api_response s (JVal.obj [("aircraft", JVal.arr L)]) now lat lon radius)
      = Option.map FlightData.aircraft
        (parse_api_response s (JVal.obj [("ac", JVal.arr L)]) now lat lon radius) := rfl

/-- Claim C10: every aggregator-produced FlightData has a non-empty
aircraft list of length at most `max_aircraft_display` and at most
`total_count`, so its primary aircraft is present. -/
theorem c10_aggregator_invariants (s : Settings) (resp : JVal) (now : Nat)
    (lat lon : Rat) (radius : Int) (fd : FlightData)
    (h : parse_api_response s resp now lat lon radius = some fd) :
    fd.aircraft ≠ []
    ∧ fd.aircraft.length ≤ s.max_aircraft_display
    ∧ fd.aircraft.length ≤ fd.total_count
    ∧ (FlightData.primary_aircraft fd).isSome = true := by
  obtain ⟨h1, h2, h3⟩ := parse_some_inv h
  have hne : fd.aircraft ≠ [] := by
    intro hl
    rw [hl] at h3
    simp at h3
  refine ⟨hne, ?_, ?_, ?_⟩
  · rw [h1]
    refine le_trans (List.length_filterMap_le _ _) ?_
    simp [List.length_take]
  · rw [h1, h2]
    refine le_trans (List.length_filterMap_le _ _) ?_
    simp [List.length_take]
  · unfold FlightData.primary_aircraft
    cases hc : fd.aircraft with
    | nil => exact absurd hc hne
    | cons a l => rfl

/-- Claim C10, witness: hypotheses discharged at a concrete `"ac"`
response with one raw aircraft. -/
theorem c10_aggregator_invariants_witness :
    ([aircraftACXXXX] : List Aircraft) ≠ []
    ∧ ([aircraftACXXXX] : List Aircraft).length ≤ 10
    ∧ ([aircraftACXXXX] : List Aircraft).length ≤ 1
    ∧ (FlightData.primary_aircraft ⟨[aircraftACXXXX], 0, 1, 0, 0, 0⟩).isSome = true := by
  have h := c10_aggregator_invariants {} (JVal.obj [("ac", JVal.arr [JVal.obj []])])
      0 0 0 0 ⟨[aircraftACXXXX], 0, 1, 0, 0, 0⟩ rfl
  exact ⟨h.1, h.2.1, h.2.2.1, h.2.2.2⟩

/-- Claim C8: when aggregation yields an absent result, the full cycle
reports failure and the file system — in particular the output image at
the configured path — is returned untouched, for every possible
display-generation collaborator (none is invoked). -/
theorem c8_no_render_on_absent_aggregate (s : Settings) (r : JVal) (now : Nat)
    (lat lon : Rat) (radius : Int)
    (generate_display : FlightData → FileSystem → Bool × FileSystem)
    (fs : FileSystem)
    (h : parse_api_response s r now lat lon radius = none) :
    run_full_cycle s (some r) now lat lon radius generate_display fs = (false, fs) := by
  cases ht : truthy r <;> simp [run_full_cycle, get_flight_data, ht, h]

/-- Claim C8, witness: an empty upstream aircraft list reports failure
and leaves the pre-existing output image in place even though the
supplied collaborator would overwrite it. -/
theorem c8_no_render_on_absent_aggregate_witness :
    run_full_cycle {} (some (JVal.obj [("aircraft", JVal.arr [])])) 0 0 0 0
        (fun _ _ => (true, ⟨some "new"⟩)) ⟨some "old"⟩
      = (false, ⟨some "old"⟩) :=
  c8_no_render_on_absent_aggregate {} (JVal.obj [("aircraft", JVal.arr [])]) 0 0 0 0
    (fun _ _ => (true, ⟨some "new"⟩)) ⟨some "old"⟩ rfl

/-- Claim C2, counterexample: template population with an absent
(`None`) FlightData raises (AttributeError on
`flight_data.primary_aircraft`) instead of producing a populated
artifact, so no sentinel substitution happens for that input. -/
theorem c2_absent_input_counterexample :
    populate_template ph_altitude none = none
    ∧ (populate_template ph_altitude none).isSome = false :=
  ⟨rfl, rfl⟩

/-- Claim C2, amended: when a FlightData is present but its primary
aircraft is absent, the five display fields resolve to the sentinels
`"NO DATA"`, `"Unknown"`, `"Unknown"`, `"N/A"`, `"N/A"` and all five
placeholders are substituted unconditionally; when the FlightData input
itself is absent, template population raises and yields no artifact. -/
theorem c2_sentinel_population (template : String) (fd : FlightData)
    (h : fd.aircraft = []) :
    populate_template template (some fd)
      = some (strReplace (strReplace (strReplace (strReplace (strReplace template
          ph_flight_number "NO DATA") ph_model "Unknown") ph_registration "Unknown")
          ph_ground_speed "N/A") ph_altitude "N/A")
    ∧ populate_template template none = none := by
  constructor
  · cases fd with
    | mk l ts tc la lo ra =>
      have hl : l = [] := h
      subst hl
      rfl
  · rfl

/-- Claim C2, amended, witness: hypotheses discharged on a concrete
template and an aircraft-less FlightData. -/
theorem c2_sentinel_population_witness :
    populate_template "X" (some ⟨[], 0, 0, 0, 0, 0⟩)
      = some (strReplace (strReplace (strReplace (strReplace (strReplace "X"
          ph_flight_number "NO DATA") ph_model "Unknown") ph_registration "Unknown")
          ph_ground_speed "N/A") ph_altitude "N/A")
    ∧ populate_template "X" none = none :=
  c2_sentinel_population "X" ⟨[], 0, 0, 0, 0, 0⟩ rfl

/-- Claim C4: with well-formed `flight`/`hex` fields, an absent or
`None` `gs` normalizes to ground speed `0`; normalization fails exactly
when `gs` is present, non-`None` and uncoercible; and the aggregator's
per-element recovery drops exactly the offending element, keeping the
rest. -/
theorem c4_gs_failure_semantics (data : RawAircraft)
    (h : flightHexWellFormed data = true) :
    (dictGet data "gs" = JVal.null →
      ∃ a, Aircraft.from_api_data data = some a ∧ a.ground_speed = 0)
    ∧ (∀ v, dictGet data "gs" = v → v ≠ JVal.null →
        (Aircraft.from_api_data data = none ↔ pyFloat? v = none))
    ∧ (∀ (pre post : List JVal) (bad : JVal),
        Aircraft.from_api_element bad = none →
        (pre ++ bad :: post).filterMap Aircraft.from_api_element
          = (pre ++ post).filterMap Aircraft.from_api_element) := by
  rw [flightHexWellFormed, Bool.and_eq_true] at h
  obtain ⟨f, hf⟩ := flight_field_of_wf h.1
  obtain ⟨fl, hfl⟩ := derive_flight_of_wf h.2 f
  refine ⟨?_, ?_, ?_⟩
  · intro hgs
    have hg : ground_speed_field data = some 0 := by
      unfold ground_speed_field
      rw [hgs]
    refine ⟨{ flight_number := fl,
              model := dictGetD data "t" (JVal.str "Unknown"),
              registration := dictGetD data "r" (JVal.str "Unknown"),
              ground_speed := 0,
              altitude := dictGet data "alt_baro",
              hex_code := dictGet data "hex",
              latitude := dictGet data "lat",
              longitude := dictGet data "lon",
              heading := dictGet data "track",
              vertical_rate := dictGet data "baro_rate",
              squawk := dictGet data "squawk" }, ?_, rfl⟩
    simp only [Aircraft.from_api_data, hf, hfl, hg]
  · intro v hv hvne
    have hg : ground_speed_field data = pyFloat? v := by
      unfold ground_speed_field
      rw [hv]
      cases v
      · exact absurd rfl hvne
      all_goals rfl
    constructor
    · intro hnone
      simp only [Aircraft.from_api_data, hf, hfl, hg] at hnone
      cases hp : pyFloat? v with
      | none => rfl
      | some q => rw [hp] at hnone; simp at hnone
    · intro hpf
      simp only [Aircraft.from_api_data, hf, hfl, hg, hpf]
  · intro pre post bad hbad
    simp [List.filterMap_append, List.filterMap_cons, hbad]

/-- Claim C4, witness: hypotheses discharged on concrete mappings — a
`None` ground speed gives `0`, the string `"fast"` fails normalization,
and the failing element alone is dropped from an aggregation. -/
theorem c4_gs_failure_semantics_witness :
    Option.map Aircraft.ground_speed (Aircraft.from_api_data [("gs", JVal.null)])
        = some 0
    ∧ Aircraft.from_api_data [("gs", JVal.str "fast")] = none
    ∧ List.filterMap Aircraft.from_api_element
        [JVal.obj [], JVal.obj [("gs", JVal.str "fast")], JVal.obj []]
        = List.filterMap Aircraft.from_api_element [JVal.obj [], JVal.obj []] := by
  have h0 := c4_gs_failure_semantics [("gs", JVal.null)] rfl
  have h1 := c4_gs_failure_semantics [("gs", JVal.str "fast")] rfl
  refine ⟨?_, ?_, ?_⟩
  · obtain ⟨a, ha, hgs⟩ := h0.1 rfl
    rw [ha]
    simpa using hgs
  · exact (h1.2.1 (JVal.str "fast") rfl (fun hh => JVal.noConfusion hh)).mpr rfl
  · exact h1.2.2 [JVal.obj []] [JVal.obj []] (JVal.obj [("gs", JVal.str "fast")]) rfl

/-- Claim C6: whenever normalization succeeds, the resulting flight
number is non-empty — under every combination of present, absent or
whitespace-only `flight` and `hex` fields (and all other inputs). -/
theorem c6_flight_number_nonempty (data : RawAircraft) (a : Aircraft)
    (ha : Aircraft.from_api_data data = some a) : a.flight_number ≠ "" := by
  unfold Aircraft.from_api_data at ha
  split at ha
  · simp at ha
  · split at ha
    · simp at ha
    · split at ha
      · simp at ha
      · rename_i x1 f hf1 x2 flight hfl x3 gs hgs
        injection ha with ha
        subst ha
        show flight ≠ ""
        unfold derive_flight at hfl
        split at hfl
        · split at hfl
          · split at hfl
            · injection hfl with hfl
              rw [← hfl]
              exact ac_append_ne_empty _
            · injection hfl with hfl
              rw [← hfl]
              decide
          · split at hfl
            · simp at hfl
            · injection hfl with hfl
              rw [← hfl]
              decide
        · rename_i hne
          injection hfl with hfl
          rw [← hfl]
          exact hne

/-- Claim C6, witness: hypotheses discharged on the whitespace-only
flight with an eight-character hex code. -/
theorem c6_flight_number_nonempty_witness :
    ({ flight_number := "AC1234", model := JVal.str "Unknown",
       registration := JVal.str "Unknown", ground_speed := 0,
       altitude := JVal.null, hex_code := JVal.str "ABCD1234",
       latitude := JVal.null, longitude := JVal.null, heading := JVal.null,
       vertical_rate := JVal.null, squawk := JVal.null } : Aircraft).flight_number
      ≠ "" :=
  c6_flight_number_nonempty [("flight", JVal.str "  "), ("hex", JVal.str "ABCD1234")]
    _ rfl

/-- Claim C7: the stored altitude `"35000ft"` renders as `"35000"`; a
`None` altitude renders `"N/A"`; and whenever the
strip-`ft`-then-`float` parse fails, the rendered altitude is
`"N/A"`. -/
theorem c7_altitude_formatting :
    format_altitude (JVal.str "35000ft") = "35000"
    ∧ format_altitude JVal.null = "N/A"
    ∧ (∀ v : JVal, v ≠ JVal.null →
        pyFloatOfString? (pyStrip (strReplace (pyStr v) "ft" "")) = none →
        format_altitude v = "N/A") := by
  refine ⟨rfl, rfl, ?_⟩
  intro v hv hp
  unfold format_altitude
  cases v
  · exact absurd rfl hv
  all_goals simp only [hp]

/-- Claim C7, witness: hypotheses discharged on the unparsable stored
altitude `"ground"` (as the upstream API reports for aircraft on the
ground). -/
theorem c7_altitude_formatting_witness :
    format_altitude (JVal.str "ground") = "N/A" :=
  c7_altitude_formatting.2.2 (JVal.str "ground") (fun hh => JVal.noConfusion hh) rfl
